import Mathlib

/-!
# Verification of the pihole-threat-intel evaluation pipeline

Shallow embedding of `src/pihole_threat_intel`: the data model (`models.py`),
the allowlist matcher (`known_domains.py`), the filter/dedup/batch helpers
(`domain_aggregator.py`), the enrichment checks and prompt digest
(`enrichment.py`), the batch classifier glue (`agent.py`) and the run
coordinator (`main.py`).  External collaborators (the storage backends, the
DNS/HTTP network, the language model) are modelled as explicit inputs.
Python strings are sequences of code points, so the string methods the code
uses (`lower`, `rstrip`, `endswith`, `split`, `join`) are modelled as
executable functions on `String.data`; Python's dynamic attribute lookup,
which the coordinator exercises by passing `EnrichedDomain` values where
`DomainStats` is expected, is modelled with an explicit error monad.
-/

namespace PiholeThreatIntel

/-! ## Python string primitives used by the code -/

/-- Python `s.lower()` (the code only feeds it domain names, which are
ASCII; `Char.toLower` lower-cases exactly the ASCII range). -/
def str_lower (s : String) : String :=
  ⟨s.data.map Char.toLower⟩

/-- Python `s.rstrip(".")`: remove every trailing `'.'`. -/
def str_rstrip_dots (s : String) : String :=
  ⟨(s.data.reverse.dropWhile (fun c => c = '.')).reverse⟩

/-- Python `s.endswith(suffix)`. -/
def str_endswith (s suffix : String) : Bool :=
  suffix.data.isSuffixOf s.data

/-- Python `", ".join(l)` and friends. -/
def str_join (sep : String) : List String → String
  | [] => ""
  | [x] => x
  | x :: y :: xs => x ++ sep ++ str_join sep (y :: xs)

/-- Python `s.split(".")` on the code-point list: split at every `'.'`.
`splitOnDotAux [] = [[]]` mirrors `"".split(".") == [""]`. -/
def splitOnDotAux : List Char → List (List Char)
  | [] => [[]]
  | c :: rest =>
    match splitOnDotAux rest with
    | [] => if c = '.' then [[], []] else [[c]]
    | h :: t => if c = '.' then [] :: h :: t else (c :: h) :: t

/-- Python `s.split(".")`. -/
def str_split_dot (s : String) : List String :=
  (splitOnDotAux s.data).map (fun l => ⟨l⟩)

/-- Python `int(s)` restricted to the unsigned-decimal case (the code applies
it to IP-address octets). -/
def parse_nat (s : String) : Option Nat :=
  if s.data ≠ [] ∧ s.data.all (fun c => c.isDigit) then
    some (s.data.foldl (fun a c => a * 10 + (c.toNat - '0'.toNat)) 0)
  else none

/-! ## `models.py` -/

/-- `models.ThreatLevel` (a `StrEnum` with four members). -/
inductive ThreatLevel
  | benign
  | suspicious
  | malicious
  | unknown
deriving DecidableEq, Repr

/-- `models.DomainStats`: aggregated stats for a single domain. -/
structure DomainStats where
  domain : String
  query_count : Nat
  unique_clients : List String
  query_types : List String
deriving DecidableEq, Repr

/-- `models.DomainEvaluation`: the result of one LLM threat evaluation.
`evaluated_at` is modelled as an abstract timestamp. -/
structure DomainEvaluation where
  domain : String
  threat_level : ThreatLevel
  confidence : Nat
  reasoning : String
  indicators : List String
  evaluated_by : String
  escalated : Bool
  query_count : Nat
  unique_clients : List String
  evaluated_at : Nat
deriving DecidableEq, Repr

/-- `models.SingleEvaluation`: the LLM's evaluation of one domain in a batch. -/
structure SingleEvaluation where
  domain : String
  threat_level : ThreatLevel
  confidence : Nat
  reasoning : String
  indicators : List String
deriving DecidableEq, Repr

/-- `models.RunStats`: the per-run counters, all starting at 0. -/
structure RunStats where
  total_domains_queried : Nat := 0
  domains_after_filtering : Nat := 0
  domains_already_evaluated : Nat := 0
  domains_to_evaluate : Nat := 0
  batches_processed : Nat := 0
  evaluations_produced : Nat := 0
  escalations : Nat := 0
  errors : Nat := 0
  benign_count : Nat := 0
  suspicious_count : Nat := 0
  malicious_count : Nat := 0
  unknown_count : Nat := 0
deriving DecidableEq, Repr

/-! ## `known_domains.py`

The allowlist itself comes from `config.yml` (outside the pipeline source),
so `is_known_good` is parametrised by the two loaded collections, modelled
as lists with membership via `contains` (the code uses frozensets). -/

/-- The normalisation `domain.lower().rstrip(".")` performed by
`is_known_good` before any comparison. -/
def normalize_domain (domain : String) : String :=
  str_rstrip_dots (str_lower domain)

/-- `known_domains.is_known_good`: exact membership after normalisation, or a
plain `str.endswith` test against any configured suffix. -/
def is_known_good (suffixes exact : List String) (domain : String) : Bool :=
  let d := normalize_domain domain
  if exact.contains d then true
  else suffixes.any (fun s => str_endswith d s)

/-! ## `domain_aggregator.py` -/

/-- `domain_aggregator.filter_known_good`: keep the domains for which
`is_known_good` is false. -/
def filter_known_good (suffixes exact : List String)
    (domains : List DomainStats) : List DomainStats :=
  domains.filter (fun d => !is_known_good suffixes exact d.domain)

/-- `domain_aggregator.remove_already_evaluated`: drop the domains whose name
is in the already-evaluated set (exact string membership, no normalisation). -/
def remove_already_evaluated (domains : List DomainStats)
    (evaluated : List String) : List DomainStats :=
  domains.filter (fun d => !evaluated.contains d.domain)

/-- The composition the coordinator applies before enrichment
(`main.run` steps 2 and 3): known-good filter, then TTL dedup. -/
def pipeline_to_evaluate (suffixes exact : List String)
    (raw : List DomainStats) (evaluated : List String) : List DomainStats :=
  remove_already_evaluated (filter_known_good suffixes exact raw) evaluated

/-- Chunking loop of `batch_domains`; `fuel` is a termination device (the
callers pass the list's length, which suffices whenever `0 < n`). -/
def batch_go {α : Type} (n : Nat) : Nat → List α → List (List α)
  | _, [] => []
  | 0, _ :: _ => []
  | fuel + 1, x :: xs => ((x :: xs).take n) :: batch_go n fuel ((x :: xs).drop n)

/-- `domain_aggregator.batch_domains`, and the identical inline comprehension
`[domains[i:i+batch_size] for i in range(0, len(domains), batch_size)]` in
`main.run`: contiguous chunks of length `n`.  For `n = 0` Python's
`range(0, len, 0)` raises `ValueError`; the coordinator model raises there,
and this function is only consulted with `0 < n`. -/
def batch_domains {α : Type} (l : List α) (n : Nat) : List (List α) :=
  if n = 0 then [] else batch_go n l.length l

theorem batch_go_flatten {α : Type} (n : Nat) (hn : n ≠ 0) :
    ∀ (fuel : Nat) (l : List α), l.length ≤ fuel →
      (batch_go n fuel l).flatten = l := by
  intro fuel
  induction fuel with
  | zero =>
    intro l hl
    have : l = [] := List.length_eq_zero.mp (Nat.le_zero.mp hl)
    subst this
    rfl
  | succ fuel ih =>
    intro l hl
    match l with
    | [] => rfl
    | x :: xs =>
      have hl' : xs.length + 1 ≤ fuel + 1 := by simpa using hl
      simp only [batch_go, List.flatten_cons]
      rw [ih ((x :: xs).drop n) (by simp only [List.length_drop, List.length_cons]; omega)]
      exact List.take_append_drop n (x :: xs)

theorem batch_go_mem_length {α : Type} (n : Nat) :
    ∀ (fuel : Nat) (l : List α) (b : List α), b ∈ batch_go n fuel l →
      b.length ≤ n := by
  intro fuel
  induction fuel with
  | zero =>
    intro l b hb
    cases l <;> simp [batch_go] at hb
  | succ fuel ih =>
    intro l b hb
    match l with
    | [] => simp [batch_go] at hb
    | x :: xs =>
      simp only [batch_go, List.mem_cons] at hb
      rcases hb with rfl | hb
      · simpa using List.length_take_le n (x :: xs)
      · exact ih _ b hb

theorem batch_go_length {α : Type} (n : Nat) (hn : n ≠ 0) :
    ∀ (fuel : Nat) (l : List α), l.length ≤ fuel →
      (batch_go n fuel l).length = (l.length + n - 1) / n := by
  intro fuel
  induction fuel with
  | zero =>
    intro l hl
    have : l = [] := List.length_eq_zero.mp (Nat.le_zero.mp hl)
    subst this
    simp only [batch_go, List.length_nil]
    exact (Nat.div_eq_of_lt (by omega)).symm
  | succ fuel ih =>
    intro l hl
    match l with
    | [] =>
      simp only [batch_go, List.length_nil]
      exact (Nat.div_eq_of_lt (by omega)).symm
    | x :: xs =>
      have hl' : xs.length + 1 ≤ fuel + 1 := by simpa using hl
      simp only [batch_go, List.length_cons]
      rw [ih ((x :: xs).drop n) (by simp only [List.length_drop, List.length_cons]; omega)]
      simp only [List.length_drop, List.length_cons]
      have hn1 : 0 < n := Nat.pos_of_ne_zero hn
      rcases Nat.le_total n (xs.length + 1) with hle | hlt
      · have e1 : xs.length + 1 - n + n - 1 = xs.length + 1 - 1 := by omega
        have e2 : xs.length + 1 + n - 1 = (xs.length + 1 - 1) + n := by omega
        rw [e1, e2, Nat.add_div_right _ hn1]
      · have e1 : xs.length + 1 - n = 0 := by omega
        rw [e1]
        have z : (0 + n - 1) / n = 0 := Nat.div_eq_of_lt (by omega)
        have one : (xs.length + 1 + n - 1) / n = 1 :=
          Nat.div_eq_of_lt_le (by omega) (by omega)
        omega

/-! ## Claim C3: allowlist matching -/

/-- Modelled from the claim's words only (for comparison with the code):
dot-aware suffix matching, where a domain matches a suffix entry iff it
equals the entry or ends with `"." ++ entry`. -/
def claim_dot_aware_known_good (suffixes exact : List String)
    (domain : String) : Bool :=
  let d := normalize_domain domain
  if exact.contains d then true
  else suffixes.any (fun s => d == s || str_endswith d ("." ++ s))

/-- C3 counterexample: with configured suffix `"example.com"`, the code's
`is_known_good` accepts `"evil-example.com"` (plain `str.endswith`, not
dot-aware), although the claim says that domain must not be known-good —
the dot-aware matcher of the claim indeed rejects it. -/
theorem is_known_good_evil_example_counterexample :
    is_known_good ["example.com"] [] "evil-example.com" = true ∧
    claim_dot_aware_known_good ["example.com"] [] "evil-example.com" = false := by
  decide

/-- C3 amended: `is_known_good(D)` is true iff D, after lower-casing and
stripping trailing dots, equals an exact allowlist entry or ends with a
configured suffix entry as a **plain string suffix** (no dot-boundary
check); in particular `"evil-example.com"` *is* known-good for the
configured suffix `"example.com"`. -/
theorem is_known_good_characterization (suffixes exact : List String)
    (domain : String) :
    is_known_good suffixes exact domain = true ↔
      (normalize_domain domain ∈ exact ∨
        ∃ s ∈ suffixes, s.data <:+ (normalize_domain domain).data) := by
  unfold is_known_good str_endswith
  by_cases h : exact.contains (normalize_domain domain) <;>
    simp_all [List.any_eq_true]

/-! ## Claim C6: filter and dedup -/

/-- C6: the domains the coordinator sends to enrichment/classification are
`remove_already_evaluated (filter_known_good raw) evaluated`; this is a
sublist of the filtered list, which is a sublist of the raw stats (so both
steps preserve the order of survivors), and every survivor comes from the
raw list, does not match the allowlist, and is not in the
already-evaluated set. -/
theorem pipeline_to_evaluate_spec (suffixes exact : List String)
    (raw : List DomainStats) (evaluated : List String) :
    (pipeline_to_evaluate suffixes exact raw evaluated).Sublist
        (filter_known_good suffixes exact raw) ∧
    (filter_known_good suffixes exact raw).Sublist raw ∧
    ∀ d ∈ pipeline_to_evaluate suffixes exact raw evaluated,
      d ∈ raw ∧ is_known_good suffixes exact d.domain = false ∧
        evaluated.contains d.domain = false := by
  refine ⟨List.filter_sublist _, List.filter_sublist _, ?_⟩
  intro d hd
  unfold pipeline_to_evaluate remove_already_evaluated filter_known_good at hd
  simp only [List.mem_filter, Bool.not_eq_eq_eq_not, Bool.not_true] at hd
  rcases hd with ⟨⟨hraw, hgood⟩, heval⟩
  exact ⟨hraw, by simpa using hgood, by simpa using heval⟩

/-- Witness for C6 at a concrete input: `a.example.com` matches the
allowlist suffix, `b.test` is already evaluated, only `c.test` survives. -/
theorem pipeline_to_evaluate_spec_witness :
    (⟨"c.test", 2, ["10.0.0.2"], ["A"]⟩ : DomainStats) ∈
        pipeline_to_evaluate ["example.com"] []
          [⟨"a.example.com", 9, [], ["A"]⟩, ⟨"b.test", 1, [], ["A"]⟩,
            ⟨"c.test", 2, ["10.0.0.2"], ["A"]⟩] ["b.test"] ∧
    (⟨"c.test", 2, ["10.0.0.2"], ["A"]⟩ : DomainStats) ∈
        [⟨"a.example.com", 9, [], ["A"]⟩, ⟨"b.test", 1, [], ["A"]⟩,
          (⟨"c.test", 2, ["10.0.0.2"], ["A"]⟩ : DomainStats)] ∧
    is_known_good ["example.com"] [] "c.test" = false ∧
    (["b.test"] : List String).contains "c.test" = false := by
  have h := (pipeline_to_evaluate_spec ["example.com"] []
    [⟨"a.example.com", 9, [], ["A"]⟩, ⟨"b.test", 1, [], ["A"]⟩,
      ⟨"c.test", 2, ["10.0.0.2"], ["A"]⟩] ["b.test"]).2.2
    ⟨"c.test", 2, ["10.0.0.2"], ["A"]⟩ (by decide)
  exact ⟨by decide, h.1, h.2.1, h.2.2⟩

/-! ## Claim C8: batching -/

/-- C8: for `1 ≤ n`, batching yields `⌈len/n⌉ = (len + n - 1) / n` groups,
each of size at most `n`, whose concatenation is the original list in its
original order, and batching the empty list yields no batches. -/
theorem batch_domains_spec {α : Type} (l : List α) (n : Nat) (hn : 1 ≤ n) :
    (batch_domains l n).length = (l.length + n - 1) / n ∧
    (∀ b ∈ batch_domains l n, b.length ≤ n) ∧
    (batch_domains l n).flatten = l ∧
    batch_domains ([] : List α) n = [] := by
  have hn0 : n ≠ 0 := by omega
  unfold batch_domains
  simp only [if_neg hn0]
  refine ⟨batch_go_length n hn0 l.length l le_rfl, ?_, ?_, ?_⟩
  · intro b hb
    exact batch_go_mem_length n l.length l b hb
  · exact batch_go_flatten n hn0 l.length l le_rfl
  · rfl

/-- Witness for C8 at a concrete input: five domains in batches of two. -/
theorem batch_domains_spec_witness :
    (batch_domains ["a", "b", "c", "d", "e"] 2).length = (5 + 2 - 1) / 2 ∧
    (∀ b ∈ batch_domains ["a", "b", "c", "d", "e"] 2, b.length ≤ 2) ∧
    (batch_domains ["a", "b", "c", "d", "e"] 2).flatten = ["a", "b", "c", "d", "e"] ∧
    batch_domains ([] : List String) 2 = [] := by
  have h := batch_domains_spec ["a", "b", "c", "d", "e"] 2 (by decide)
  simpa using h

/-! ## `enrichment.py`: resolver-pair block detection

`_resolve` runs `dig` and catches `asyncio.TimeoutError` and
`FileNotFoundError`, turning both into an **empty** line list; any other
exception (e.g. while decoding or spawning) escapes it.  A resolution is
therefore modelled by its outcome. -/

/-- Outcome of one `_resolve(domain, qtype, server)` call. -/
inductive ResolveOutcome
  | ok (lines : List String)
  | timeout
  | notFound
  | raised
deriving DecidableEq, Repr

/-- What `_resolve` returns (or raises): caught timeouts and a missing `dig`
binary yield `[]`; other exceptions propagate. -/
def resolve_result : ResolveOutcome → Except Unit (List String)
  | .ok lines => .ok lines
  | .timeout => .ok []
  | .notFound => .ok []
  | .raised => .error ()

/-- The answer lines `_resolve` delivers when it does not raise. -/
def resolve_lines : ResolveOutcome → List String
  | .ok lines => lines
  | _ => []

/-- `enrichment._check_quad9`: filtered (9.9.9.9) vs unfiltered (9.9.9.10)
resolution; `try/except Exception: return None` around the pair. -/
def check_quad9 (filtered unfiltered : ResolveOutcome) : Option Bool :=
  match resolve_result filtered, resolve_result unfiltered with
  | .ok f, .ok u => if f.isEmpty && !u.isEmpty then some true else some false
  | _, _ => none

/-- `enrichment._check_cloudflare`: filtered (1.1.1.2) vs unfiltered
(1.1.1.1), with the extra `0.0.0.0` sinkhole rule. -/
def check_cloudflare (filtered unfiltered : ResolveOutcome) : Option Bool :=
  match resolve_result filtered, resolve_result unfiltered with
  | .ok f, .ok u =>
    if !f.isEmpty && f.any (fun ip => ip == "0.0.0.0") && !u.isEmpty then some true
    else if f.isEmpty && !u.isEmpty then some true
    else some false
  | _, _ => none

/-- C4 counterexample: when the filtered resolver **times out**, `_resolve`
returns `[]` (the timeout is swallowed), so `_check_quad9` reports
`blocked = true` — not the `unknown` the claim requires for a timeout.
Likewise a missing `dig` binary on both sides yields `false`, not
`unknown`, and the same happens for `_check_cloudflare`. -/
theorem check_quad9_timeout_counterexample :
    check_quad9 .timeout (.ok ["93.184.216.34"]) = some true ∧
    check_quad9 .notFound .notFound = some false ∧
    check_cloudflare .timeout (.ok ["93.184.216.34"]) = some true := by
  decide

/-- C4 amended: the verdict is `unknown` exactly when one of the two
resolutions raises an exception `_resolve` does not catch (timeouts and a
missing `dig` binary are caught and become empty answers).  Otherwise:
no filtered answer (including a swallowed timeout) plus a non-empty
unfiltered answer means `true` (for Cloudflare also a `0.0.0.0` sinkhole
answer plus a non-empty unfiltered answer); every other combination —
in particular both answers empty — means `false`. -/
theorem resolver_block_detection_spec (f u : ResolveOutcome) :
    (check_quad9 f u = none ↔ (f = .raised ∨ u = .raised)) ∧
    (check_cloudflare f u = none ↔ (f = .raised ∨ u = .raised)) ∧
    (f ≠ .raised → u ≠ .raised →
      ((check_quad9 f u = some true ↔
          (resolve_lines f = [] ∧ resolve_lines u ≠ [])) ∧
       (check_quad9 f u = some false ↔
          ¬(resolve_lines f = [] ∧ resolve_lines u ≠ [])) ∧
       (check_cloudflare f u = some true ↔
          ((resolve_lines f = [] ∨ "0.0.0.0" ∈ resolve_lines f) ∧
            resolve_lines u ≠ [])) ∧
       (check_quad9 (.ok []) (.ok []) = some false ∧
        check_cloudflare (.ok []) (.ok []) = some false))) := by
  cases f <;> cases u <;>
    simp [check_quad9, check_cloudflare, resolve_result, resolve_lines,
      List.isEmpty_iff, List.any_eq_true] <;>
    (try split_ifs <;> simp_all) <;> tauto

/-- Witness for C4 at concrete outcomes: a blocked domain (filtered empty,
unfiltered answers) and an erroring resolver. -/
theorem resolver_block_detection_spec_witness :
    check_quad9 (.ok []) (.ok ["1.2.3.4"]) = some true ∧
    check_cloudflare (.ok ["0.0.0.0"]) (.ok ["1.2.3.4"]) = some true ∧
    check_quad9 .raised (.ok ["1.2.3.4"]) = none := by
  have h := resolver_block_detection_spec (.ok []) (.ok ["1.2.3.4"])
  have h2 := resolver_block_detection_spec (.ok ["0.0.0.0"]) (.ok ["1.2.3.4"])
  have h3 := resolver_block_detection_spec .raised (.ok ["1.2.3.4"])
  refine ⟨?_, ?_, ?_⟩
  · exact ((h.2.2 (by decide) (by decide)).1).mpr (by decide)
  · exact ((h2.2.2 (by decide) (by decide)).2.2.1).mpr (by decide)
  · exact h3.1.mpr (Or.inl rfl)

/-! ## `enrichment.py`: zone-based DNSBL lookups -/

/-- The Spamhaus DBL return-code table of `_check_spamhaus`. -/
def spamhaus_code_map : List (String × String) :=
  [("127.0.1.2", "spam"),
   ("127.0.1.4", "phishing"),
   ("127.0.1.5", "malware"),
   ("127.0.1.6", "botnet_cc"),
   ("127.0.1.102", "abused_spam"),
   ("127.0.1.104", "abused_phishing"),
   ("127.0.1.105", "abused_malware"),
   ("127.0.1.106", "abused_botnet_cc")]

/-- `enrichment._check_spamhaus` applied to the resolver's answer for
`<domain>.dbl.spamhaus.org`: empty answer is clean, otherwise the first
answer found in the code table decides the category. -/
def check_spamhaus (results : List String) : Option String :=
  if results.isEmpty then none
  else results.findSome? (fun ip => spamhaus_code_map.lookup ip)

/-- The last-octet bitmask interpretation of `_check_surbl`:
`code & 8` phishing, `code & 16` malware, `code & 64` abuse,
`code & 128` cracked, appended in that order. -/
def surbl_octet_categories (code : Nat) : List String :=
  (if code &&& 8 ≠ 0 then ["phishing"] else []) ++
  (if code &&& 16 ≠ 0 then ["malware"] else []) ++
  (if code &&& 64 ≠ 0 then ["abuse"] else []) ++
  (if code &&& 128 ≠ 0 then ["cracked"] else [])

/-- `enrichment._check_surbl` applied to the resolver's answer for
`<domain>.multi.surbl.org`: empty answer is clean; each answer that splits
into four dot-separated parts with a numeric last octet contributes its
bitmask categories; a non-numeric octet is skipped (`except ValueError:
continue`); the collected categories are comma-joined, none meaning clean. -/
def check_surbl (results : List String) : Option String :=
  if results.isEmpty then none
  else
    let categories := results.flatMap (fun ip =>
      match str_split_dot ip with
      | [_, _, _, p3] =>
        match parse_nat p3 with
        | some code => surbl_octet_categories code
        | none => []
      | _ => [])
    if categories.isEmpty then none else some (str_join ", " categories)

/-- C7: the Spamhaus discrete code table (`127.0.1.2/4/5/6` ↦
spam/phishing/malware/botnet_cc), the SURBL last-octet bitmask
(bits 8/16/64/128 ↦ phishing/malware/abuse/cracked, comma-joined when
several bits are set, e.g. `24 = 8 + 16` ↦ `"phishing, malware"`),
and the empty answer meaning clean for both zones. -/
theorem dnsbl_code_tables :
    check_spamhaus ["127.0.1.2"] = some "spam" ∧
    check_spamhaus ["127.0.1.4"] = some "phishing" ∧
    check_spamhaus ["127.0.1.5"] = some "malware" ∧
    check_spamhaus ["127.0.1.6"] = some "botnet_cc" ∧
    check_surbl ["127.0.0.8"] = some "phishing" ∧
    check_surbl ["127.0.0.16"] = some "malware" ∧
    check_surbl ["127.0.0.64"] = some "abuse" ∧
    check_surbl ["127.0.0.128"] = some "cracked" ∧
    check_surbl ["127.0.0.24"] = some "phishing, malware" ∧
    check_surbl ["127.0.0.152"] = some "phishing, malware, cracked" ∧
    check_spamhaus [] = none ∧
    check_surbl [] = none := by
  decide

/-! ## `enrichment.EnrichedDomain` and its prompt digest -/

/-- `enrichment.EnrichedDomain`: domain stats plus all enrichment data.
Ages and OTX counts are Python ints (possibly non-positive), hence `Int`. -/
structure EnrichedDomain where
  stats : DomainStats
  dns_a : List String := []
  dns_mx : List String := []
  dns_ns : List String := []
  dns_txt : List String := []
  quad9_blocked : Option Bool := none
  cloudflare_blocked : Option Bool := none
  spamhaus_result : Option String := none
  surbl_result : Option String := none
  domain_age_days : Option Int := none
  registrar : Option String := none
  creation_date : Option String := none
  otx_pulse_count : Option Int := none
  otx_malware_count : Option Int := none
  otx_tags : List String := []
deriving DecidableEq, Repr

/-- The `domain` property of `EnrichedDomain`. -/
def EnrichedDomain.domain (e : EnrichedDomain) : String :=
  e.stats.domain

/-- `if self.quad9_blocked:` — `None` and `False` are falsy. -/
def quad9_signal (e : EnrichedDomain) : List String :=
  if e.quad9_blocked = some true then ["BLOCKED by Quad9 (malicious)"] else []

/-- `if self.cloudflare_blocked:` -/
def cloudflare_signal (e : EnrichedDomain) : List String :=
  if e.cloudflare_blocked = some true then ["BLOCKED by Cloudflare (malicious)"] else []

/-- `if self.spamhaus_result:` — `None` and `""` are falsy. -/
def spamhaus_signal (e : EnrichedDomain) : List String :=
  match e.spamhaus_result with
  | some s => if s = "" then [] else ["Spamhaus: " ++ s]
  | none => []

/-- `if self.surbl_result:` -/
def surbl_signal (e : EnrichedDomain) : List String :=
  match e.surbl_result with
  | some s => if s = "" then [] else ["SURBL: " ++ s]
  | none => []

/-- `if self.domain_age_days is not None:` then the `< 30` / `< 365` split;
ages of 365 days and more add nothing. -/
def age_signal (e : EnrichedDomain) : List String :=
  match e.domain_age_days with
  | some a =>
    if a < 30 then [s!"Domain age: {a} days (NEW)"]
    else if a < 365 then [s!"Domain age: {a} days"]
    else []
  | none => []

/-- `if self.registrar:` -/
def registrar_signal (e : EnrichedDomain) : List String :=
  match e.registrar with
  | some r => if r = "" then [] else ["Registrar: " ++ r]
  | none => []

/-- `if self.otx_pulse_count and self.otx_pulse_count > 0:` (`None` and `0`
are falsy, so the test collapses to `0 < n`). -/
def otx_pulse_signal (e : EnrichedDomain) : List String :=
  match e.otx_pulse_count with
  | some n => if 0 < n then [s!"AlienVault OTX: {n} threat reports"] else []
  | none => []

/-- `if self.otx_malware_count and self.otx_malware_count > 0:` -/
def otx_malware_signal (e : EnrichedDomain) : List String :=
  match e.otx_malware_count with
  | some n => if 0 < n then [s!"OTX malware samples: {n}"] else []
  | none => []

/-- `if self.dns_a:` — first three A records. -/
def dns_a_signal (e : EnrichedDomain) : List String :=
  if e.dns_a.isEmpty then [] else ["A: " ++ str_join ", " (e.dns_a.take 3)]

/-- `if self.dns_mx:` — first two MX records. -/
def dns_mx_signal (e : EnrichedDomain) : List String :=
  if e.dns_mx.isEmpty then [] else ["MX: " ++ str_join ", " (e.dns_mx.take 2)]

/-- `if self.dns_ns:` — first two NS records. -/
def dns_ns_signal (e : EnrichedDomain) : List String :=
  if e.dns_ns.isEmpty then [] else ["NS: " ++ str_join ", " (e.dns_ns.take 2)]

/-- The `signals` list accumulated by `format_for_prompt`, in the source's
append order.  `dns_txt` and `otx_tags` are never consulted. -/
def signals (e : EnrichedDomain) : List String :=
  quad9_signal e ++ cloudflare_signal e ++ spamhaus_signal e ++
  surbl_signal e ++ age_signal e ++ registrar_signal e ++
  otx_pulse_signal e ++ otx_malware_signal e ++
  dns_a_signal e ++ dns_mx_signal e ++ dns_ns_signal e

/-- The first digest line: domain, query volume, first five clients, query
types. -/
def header_line (e : EnrichedDomain) : String :=
  let d := e.domain
  let qc := e.stats.query_count
  let clients := str_join ", " (e.stats.unique_clients.take 5)
  let qtypes := str_join ", " e.stats.query_types
  s!"- {d} | queries: {qc} | clients: {clients} | types: {qtypes}"

/-- `EnrichedDomain.format_for_prompt`: the header line, then either the
joined intel signals or the explicit no-signal line. -/
def format_for_prompt (e : EnrichedDomain) : String :=
  let sg := signals e
  let intel :=
    if sg.isEmpty then "  Intel: no signals (not listed in any blocklist)"
    else "  Intel: " ++ str_join " | " sg
  str_join "\n" [header_line e, intel]

/-- An enrichment record whose only non-empty enrichment field is a TXT
record set. -/
def txt_only_enriched : EnrichedDomain :=
  { stats := ⟨"spf.test", 4, ["10.0.0.7"], ["TXT"]⟩,
    dns_txt := ["v=spf1 -all"] }

/-- C9 counterexample: `dns_txt` is a non-empty enrichment field, yet the
digest still claims that no signal was found — `format_for_prompt` never
consults `dns_txt` (nor `otx_tags`), so "intel line iff some enrichment
field carries a non-empty signal" fails. -/
theorem format_for_prompt_txt_counterexample :
    txt_only_enriched.dns_txt ≠ [] ∧
    format_for_prompt txt_only_enriched =
      "- spf.test | queries: 4 | clients: 10.0.0.7 | types: TXT\n" ++
        "  Intel: no signals (not listed in any blocklist)" := by
  decide

/-- C9 amended: the digest always starts with the header (query count, at
most five clients, query types); the intel line appears iff one of the
fields the formatter inspects carries a signal — Quad9/Cloudflare verdict
`true`, a non-empty Spamhaus/SURBL category, a known age under 365 days, a
non-empty registrar, a positive OTX pulse or malware count, or non-empty
A/MX/NS records — while `dns_txt` and `otx_tags` never contribute;
otherwise the digest explicitly reports no blocklist signal.  An age under
30 days is flagged `(NEW)`, an age in `[30, 365)` appears without the
flag, and an age of 365 days or more produces the same digest as an
unknown age. -/
theorem quad9_signal_nil (e : EnrichedDomain) :
    quad9_signal e = [] ↔ e.quad9_blocked ≠ some true := by
  unfold quad9_signal
  split_ifs with h <;> simp_all

theorem cloudflare_signal_nil (e : EnrichedDomain) :
    cloudflare_signal e = [] ↔ e.cloudflare_blocked ≠ some true := by
  unfold cloudflare_signal
  split_ifs with h <;> simp_all

theorem spamhaus_signal_nil (e : EnrichedDomain) :
    spamhaus_signal e = [] ↔ ∀ s, e.spamhaus_result = some s → s = "" := by
  unfold spamhaus_signal
  cases h : e.spamhaus_result with
  | none => simp
  | some s => dsimp only; split_ifs with hs <;> simp_all

theorem surbl_signal_nil (e : EnrichedDomain) :
    surbl_signal e = [] ↔ ∀ s, e.surbl_result = some s → s = "" := by
  unfold surbl_signal
  cases h : e.surbl_result with
  | none => simp
  | some s => dsimp only; split_ifs with hs <;> simp_all

theorem age_signal_nil (e : EnrichedDomain) :
    age_signal e = [] ↔ ∀ a, e.domain_age_days = some a → 365 ≤ a := by
  unfold age_signal
  cases h : e.domain_age_days with
  | none => simp
  | some a => dsimp only; split_ifs with h1 h2 <;> simp_all <;> omega

theorem registrar_signal_nil (e : EnrichedDomain) :
    registrar_signal e = [] ↔ ∀ r, e.registrar = some r → r = "" := by
  unfold registrar_signal
  cases h : e.registrar with
  | none => simp
  | some r => dsimp only; split_ifs with hr <;> simp_all

theorem otx_pulse_signal_nil (e : EnrichedDomain) :
    otx_pulse_signal e = [] ↔ ∀ n, e.otx_pulse_count = some n → n ≤ 0 := by
  unfold otx_pulse_signal
  cases h : e.otx_pulse_count with
  | none => simp
  | some n => dsimp only; split_ifs with hn <;> simp_all <;> omega

theorem otx_malware_signal_nil (e : EnrichedDomain) :
    otx_malware_signal e = [] ↔ ∀ n, e.otx_malware_count = some n → n ≤ 0 := by
  unfold otx_malware_signal
  cases h : e.otx_malware_count with
  | none => simp
  | some n => dsimp only; split_ifs with hn <;> simp_all <;> omega

theorem dns_a_signal_nil (e : EnrichedDomain) :
    dns_a_signal e = [] ↔ e.dns_a = [] := by
  unfold dns_a_signal
  split_ifs with h <;> simp_all

theorem dns_mx_signal_nil (e : EnrichedDomain) :
    dns_mx_signal e = [] ↔ e.dns_mx = [] := by
  unfold dns_mx_signal
  split_ifs with h <;> simp_all

theorem dns_ns_signal_nil (e : EnrichedDomain) :
    dns_ns_signal e = [] ↔ e.dns_ns = [] := by
  unfold dns_ns_signal
  split_ifs with h <;> simp_all

theorem format_for_prompt_spec (e : EnrichedDomain) :
    (signals e = [] ↔
      (e.quad9_blocked ≠ some true ∧ e.cloudflare_blocked ≠ some true ∧
       (∀ s, e.spamhaus_result = some s → s = "") ∧
       (∀ s, e.surbl_result = some s → s = "") ∧
       (∀ a, e.domain_age_days = some a → 365 ≤ a) ∧
       (∀ r, e.registrar = some r → r = "") ∧
       (∀ n, e.otx_pulse_count = some n → n ≤ 0) ∧
       (∀ n, e.otx_malware_count = some n → n ≤ 0) ∧
       e.dns_a = [] ∧ e.dns_mx = [] ∧ e.dns_ns = [])) ∧
    (signals e = [] →
      format_for_prompt e =
        header_line e ++ "\n" ++ "  Intel: no signals (not listed in any blocklist)") ∧
    (signals e ≠ [] →
      format_for_prompt e =
        header_line e ++ "\n" ++ ("  Intel: " ++ str_join " | " (signals e))) ∧
    (∀ a, e.domain_age_days = some a → a < 30 →
      s!"Domain age: {a} days (NEW)" ∈ signals e) ∧
    (∀ a, e.domain_age_days = some a → 30 ≤ a → a < 365 →
      s!"Domain age: {a} days" ∈ signals e) ∧
    (∀ a, e.domain_age_days = some a → 365 ≤ a →
      signals e = signals { e with domain_age_days := none }) := by
  refine ⟨?_, ?_, ?_, ?_, ?_, ?_⟩
  · unfold signals
    simp only [List.append_eq_nil, quad9_signal_nil, cloudflare_signal_nil,
      spamhaus_signal_nil, surbl_signal_nil, age_signal_nil,
      registrar_signal_nil, otx_pulse_signal_nil, otx_malware_signal_nil,
      dns_a_signal_nil, dns_mx_signal_nil, dns_ns_signal_nil]
    tauto
  · intro h
    simp [format_for_prompt, str_join, h]
  · intro h
    simp [format_for_prompt, str_join, h, List.isEmpty_iff]
  · intro a ha hlt
    have hmem : s!"Domain age: {a} days (NEW)" ∈ age_signal e := by
      unfold age_signal
      rw [ha]
      simp [hlt]
    simp only [signals, List.mem_append]
    tauto
  · intro a ha h30 h365
    have hmem : s!"Domain age: {a} days" ∈ age_signal e := by
      unfold age_signal
      rw [ha]
      dsimp only
      rw [if_neg (by omega : ¬a < 30), if_pos h365]
      simp
    simp only [signals, List.mem_append]
    tauto
  · intro a ha h365
    simp only [signals, quad9_signal, cloudflare_signal, spamhaus_signal,
      surbl_signal, age_signal, registrar_signal, otx_pulse_signal,
      otx_malware_signal, dns_a_signal, dns_mx_signal, dns_ns_signal, ha]
    rw [if_neg (by omega : ¬a < 30), if_neg (by omega : ¬a < 365)]

/-- Witness for C9 at a concrete enrichment record: Spamhaus category plus
a 10-day age produce an intel line with the `(NEW)` flag. -/
theorem format_for_prompt_spec_witness :
    format_for_prompt
        { stats := ⟨"young.test", 7, ["10.0.0.3"], ["A"]⟩,
          spamhaus_result := some "malware",
          domain_age_days := some 10 } =
      header_line
          { stats := ⟨"young.test", 7, ["10.0.0.3"], ["A"]⟩,
            spamhaus_result := some "malware",
            domain_age_days := some 10 } ++ "\n" ++
        ("  Intel: " ++ str_join " | "
          (signals
            { stats := ⟨"young.test", 7, ["10.0.0.3"], ["A"]⟩,
              spamhaus_result := some "malware",
              domain_age_days := some 10 })) ∧
    "Domain age: 10 days (NEW)" ∈ signals
        { stats := ⟨"young.test", 7, ["10.0.0.3"], ["A"]⟩,
          spamhaus_result := some "malware",
          domain_age_days := some 10 } := by
  have h := format_for_prompt_spec
    { stats := ⟨"young.test", 7, ["10.0.0.3"], ["A"]⟩,
      spamhaus_result := some "malware",
      domain_age_days := some 10 }
  refine ⟨h.2.2.1 (by decide), ?_⟩
  have h2 := h.2.2.2.1 10 rfl (by decide)
  simpa using h2

/-! ## `agent.py`: the classifier glue

`main.run` passes batches of `EnrichedDomain` to `evaluate_batch`, whose
signature (and `_format_batch_prompt`'s) is annotated `list[DomainStats]`.
Python does not check annotations, so the mismatch only surfaces as an
`AttributeError` when `_format_batch_prompt` reads `d.unique_clients`.
A batch member is therefore one of the two runtime types, and attribute
access is explicit and fallible. -/

/-- A Python exception escaping a pipeline stage. -/
inductive PyErr
  | attributeError
  | valueError
deriving DecidableEq, Repr

/-- A value appearing in a batch handed to `evaluate_batch`. -/
inductive PromptInput
  | stats (s : DomainStats)
  | enriched (e : EnrichedDomain)
deriving DecidableEq, Repr

/-- `d.domain`: a field of `DomainStats` and a property of `EnrichedDomain`,
so it never raises. -/
def PromptInput.attr_domain : PromptInput → String
  | .stats s => s.domain
  | .enriched e => e.domain

/-- `d.unique_clients`: `EnrichedDomain` has no such attribute. -/
def PromptInput.attr_unique_clients : PromptInput → Except PyErr (List String)
  | .stats s => .ok s.unique_clients
  | .enriched _ => .error .attributeError

/-- `d.query_types`: `EnrichedDomain` has no such attribute. -/
def PromptInput.attr_query_types : PromptInput → Except PyErr (List String)
  | .stats s => .ok s.query_types
  | .enriched _ => .error .attributeError

/-- `d.query_count`: `EnrichedDomain` has no such attribute. -/
def PromptInput.attr_query_count : PromptInput → Except PyErr Nat
  | .stats s => .ok s.query_count
  | .enriched _ => .error .attributeError

/-- The string value of a `ThreatLevel` (`StrEnum`). -/
def ThreatLevel.toStr : ThreatLevel → String
  | .benign => "benign"
  | .suspicious => "suspicious"
  | .malicious => "malicious"
  | .unknown => "unknown"

/-- `agent._format_learning_context`.  The prompt templates live in
`config.yml` outside the pipeline source; they are modelled as fixed
placeholder strings (no claim depends on their text). -/
def format_learning_context (previous : List DomainEvaluation) : String :=
  if previous.isEmpty then "no_previous_evaluations"
  else
    "previous_evaluations_header" ++ "\n" ++
      str_join "\n" (previous.map (fun ev =>
        let indicators_str :=
          if ev.indicators.isEmpty then "none" else str_join ", " ev.indicators
        let d := ev.domain
        let tl := ev.threat_level.toStr
        let conf := ev.confidence
        s!"- {d}: {tl} (confidence: {conf}) -- {indicators_str}"))

/-- One iteration of the `for d in batch` loop of `_format_batch_prompt`:
reads `d.unique_clients`, `d.query_types`, `d.domain`, `d.query_count`. -/
def format_domain_line (d : PromptInput) : Except PyErr String :=
  match d.attr_unique_clients with
  | .error e => .error e
  | .ok ucs =>
    match d.attr_query_types with
    | .error e => .error e
    | .ok qts =>
      match d.attr_query_count with
      | .error e => .error e
      | .ok qc =>
        let dom := d.attr_domain
        let clients := str_join ", " (ucs.take 5)
        let qtypes := str_join ", " qts
        .ok s!"- {dom} | queries: {qc} | clients: {clients} | types: {qtypes}"

/-- `agent._format_batch_prompt`: builds all domain lines (raising on the
first `EnrichedDomain` member) and instantiates the external
`batch_user_prompt` template, modelled as the plain concatenation of the
learning context and the domain list. -/
def format_batch_prompt (batch : List PromptInput)
    (learning_context : String) : Except PyErr String :=
  match batch.mapM format_domain_line with
  | .error e => .error e
  | .ok domain_lines =>
    .ok (learning_context ++ "\n" ++ str_join "\n" domain_lines)

/-- `domain_lookup = {d.domain: d for d in batch}` followed by `.get`:
with duplicate domains the later entry wins, hence the reversed search. -/
def domain_lookup (batch : List PromptInput) (dom : String) : Option PromptInput :=
  batch.reverse.find? (fun d => d.attr_domain == dom)

/-- The `DomainEvaluation(...)` constructor call in `evaluate_batch`'s join
loop: `escalated` is always `False`, `evaluated_by` is the configured
model name. -/
def mk_eval (single : SingleEvaluation) (model_name : String) (now : Nat)
    (qc : Nat) (uc : List String) : DomainEvaluation :=
  { domain := single.domain, threat_level := single.threat_level,
    confidence := single.confidence, reasoning := single.reasoning,
    indicators := single.indicators, evaluated_by := model_name,
    escalated := false, query_count := qc, unique_clients := uc,
    evaluated_at := now }

/-- `agent.evaluate_batch`.  The prompt is built *before* the `try` block,
so an `AttributeError` there propagates; only the model call itself is
guarded by `try/except Exception: return []`.  `llm` is the outcome of
`agent.run` (the structured call after its internal retries). -/
def evaluate_batch (batch : List PromptInput)
    (llm : Except Unit (List SingleEvaluation))
    (previous : List DomainEvaluation) (model_name : String) (now : Nat) :
    Except PyErr (List DomainEvaluation) :=
  let learning_context := format_learning_context previous
  match format_batch_prompt batch learning_context with
  | .error e => .error e
  | .ok _user_prompt =>
    match llm with
    | .error _ => .ok []
    | .ok raws =>
      raws.mapM (fun single =>
        match domain_lookup batch single.domain with
        | some p =>
          match p.attr_query_count, p.attr_unique_clients with
          | .ok qc, .ok uc => .ok (mk_eval single model_name now qc uc)
          | .error e, _ => .error e
          | .ok _, .error e => .error e
        | none => .ok (mk_eval single model_name now 0 []))

/-! ### Helper lemmas about `mapM` in the `Except` monad -/

theorem mapM_except_ok {α β : Type} (f : α → Except PyErr β) (g : α → β) :
    ∀ l : List α, (∀ a ∈ l, f a = .ok (g a)) → l.mapM f = .ok (l.map g) := by
  intro l
  induction l with
  | nil => intro _; rfl
  | cons x xs ih =>
    intro h
    rw [List.mapM_cons, h x (by simp), ih (fun a ha => h a (by simp [ha]))]
    rfl

theorem mem_of_mapM_except_ok {α β : Type} (f : α → Except PyErr β) :
    ∀ (l : List α) (ys : List β), l.mapM f = .ok ys →
      ∀ y ∈ ys, ∃ x ∈ l, f x = .ok y := by
  intro l
  induction l with
  | nil =>
    intro ys h y hy
    simp only [List.mapM_nil] at h
    cases h
    simp at hy
  | cons x xs ih =>
    intro ys h y hy
    rw [List.mapM_cons] at h
    cases hx : f x with
    | error e => rw [hx] at h; cases h
    | ok b =>
      rw [hx] at h
      cases hxs : xs.mapM f with
      | error e =>
        rw [hxs] at h
        cases h
      | ok bs =>
        rw [hxs] at h
        cases h
        rcases List.mem_cons.mp hy with rfl | hy'
        · exact ⟨x, by simp, hx⟩
        · obtain ⟨x', hx', hfx'⟩ := ih bs hxs y hy'
          exact ⟨x', by simp [hx'], hfx'⟩

/-- `find?` through a `map`. -/
theorem find?_map_eq {α β : Type} (f : α → β) (p : β → Bool) :
    ∀ l : List α, (l.map f).find? p = (l.find? (fun a => p (f a))).map f := by
  intro l
  induction l with
  | nil => rfl
  | cons x xs ih =>
    simp only [List.map_cons, List.find?_cons]
    cases h : p (f x) <;> simp [h, ih]

/-- On a batch of genuine `DomainStats`, the dict lookup is a reversed
search over the stats themselves. -/
theorem domain_lookup_stats (batch : List DomainStats) (dom : String) :
    domain_lookup (batch.map PromptInput.stats) dom =
      (batch.reverse.find? (fun d => d.domain == dom)).map PromptInput.stats := by
  unfold domain_lookup
  rw [← List.map_reverse, find?_map_eq]
  rfl

/-- The join `evaluate_batch` performs for one structured result, on a
stats-typed batch. -/
def stats_join (batch : List DomainStats) (model_name : String) (now : Nat)
    (single : SingleEvaluation) : DomainEvaluation :=
  match batch.reverse.find? (fun d => d.domain == single.domain) with
  | some st => mk_eval single model_name now st.query_count st.unique_clients
  | none => mk_eval single model_name now 0 []

theorem format_batch_prompt_stats_ok (batch : List DomainStats) (ctx : String) :
    ∃ s, format_batch_prompt (batch.map PromptInput.stats) ctx = .ok s := by
  unfold format_batch_prompt
  rw [mapM_except_ok format_domain_line
    (fun a => (format_domain_line a).toOption.getD "")
    (batch.map PromptInput.stats) ?_]
  · exact ⟨_, rfl⟩
  · intro a ha
    obtain ⟨d, _, rfl⟩ := List.mem_map.mp ha
    rfl

/-- What `evaluate_batch` computes on a batch of genuine `DomainStats`:
never an exception; `[]` on a failed model call; otherwise one joined
evaluation per structured result, in order. -/
theorem evaluate_batch_stats_eq (batch : List DomainStats)
    (llm : Except Unit (List SingleEvaluation))
    (previous : List DomainEvaluation) (model_name : String) (now : Nat) :
    evaluate_batch (batch.map PromptInput.stats) llm previous model_name now =
      .ok (match llm with
        | .error _ => []
        | .ok raws => raws.map (stats_join batch model_name now)) := by
  obtain ⟨s, hs⟩ :=
    format_batch_prompt_stats_ok batch (format_learning_context previous)
  simp only [evaluate_batch]
  rw [hs]
  cases llm with
  | error e => rfl
  | ok raws =>
    dsimp only
    apply mapM_except_ok
    intro single _
    rw [domain_lookup_stats]
    cases hfind : batch.reverse.find? (fun d => d.domain == single.domain) with
    | none => simp [stats_join, hfind]
    | some st =>
      simp [stats_join, hfind, PromptInput.attr_query_count,
        PromptInput.attr_unique_clients]

/-! ## Claim C2: joining structured results back to the batch -/

/-- C2 counterexample: the classifier result for `"b.com"`, a domain absent
from the submitted batch (`["a.com"]`), is **not** discarded — it appears
in the returned evaluations (with zeroed stats). -/
theorem evaluate_batch_keeps_foreign_domain :
    (evaluate_batch [.stats ⟨"a.com", 5, ["10.0.0.2"], ["A"]⟩]
        (.ok [⟨"b.com", .malicious, 90, "model hallucination", []⟩])
        [] "qwen3:14b" 0).map
      (fun evs => evs.map (fun ev => ev.domain)) = .ok ["b.com"] := by
  rfl

/-- C2 amended: for every stats-typed batch and structured result list, the
returned evaluations correspond one-to-one (in order) to the returned
records — including records whose domain never appeared in the batch,
which are kept and merely joined with `query_count = 0` and
`unique_clients = []`. -/
theorem evaluate_batch_join_spec (batch : List DomainStats)
    (raws : List SingleEvaluation) (previous : List DomainEvaluation)
    (model_name : String) (now : Nat) (evs : List DomainEvaluation)
    (h : evaluate_batch (batch.map PromptInput.stats) (.ok raws)
          previous model_name now = .ok evs) :
    evs.map (fun ev => ev.domain) = raws.map (fun single => single.domain) ∧
    ∀ ev ∈ evs, (∀ d ∈ batch, d.domain ≠ ev.domain) →
      ev.query_count = 0 ∧ ev.unique_clients = [] := by
  rw [evaluate_batch_stats_eq] at h
  cases h
  constructor
  · rw [List.map_map]
    apply List.map_congr_left
    intro single _
    unfold stats_join
    cases hfind : batch.reverse.find? (fun d => d.domain == single.domain) <;>
      simp [hfind, mk_eval]
  · intro ev hev hforeign
    obtain ⟨single, _, rfl⟩ := List.mem_map.mp hev
    unfold stats_join
    cases hfind : batch.reverse.find? (fun d => d.domain == single.domain) with
    | none => simp [mk_eval]
    | some st =>
      exfalso
      have hmem : st ∈ batch := by
        have hrev := List.mem_of_find?_eq_some hfind
        simpa using hrev
      have hpred := List.find?_some hfind
      have hdom : st.domain = single.domain := by simpa using hpred
      have hjoin : stats_join batch model_name now single =
          mk_eval single model_name now st.query_count st.unique_clients := by
        unfold stats_join
        rw [hfind]
      exact hforeign st hmem (by simp [hjoin, mk_eval, hdom])

/-- Witness for C2 amended at a concrete batch: one in-batch result joined
with its stats, one foreign result kept with zeroed stats. -/
theorem evaluate_batch_join_spec_witness :
    ([⟨"a.com", .benign, 80, "ok", [], "qwen3:14b", false, 5, ["10.0.0.2"], 0⟩,
      ⟨"b.com", .malicious, 90, "x", [], "qwen3:14b", false, 0, [], 0⟩] :
        List DomainEvaluation).map (fun ev => ev.domain) =
      ([⟨"a.com", .benign, 80, "ok", []⟩, ⟨"b.com", .malicious, 90, "x", []⟩] :
        List SingleEvaluation).map (fun single => single.domain) ∧
    ∀ ev ∈ ([⟨"a.com", .benign, 80, "ok", [], "qwen3:14b", false, 5, ["10.0.0.2"], 0⟩,
      ⟨"b.com", .malicious, 90, "x", [], "qwen3:14b", false, 0, [], 0⟩] :
        List DomainEvaluation),
      (∀ d ∈ ([⟨"a.com", 5, ["10.0.0.2"], ["A"]⟩] : List DomainStats),
        d.domain ≠ ev.domain) →
      ev.query_count = 0 ∧ ev.unique_clients = [] :=
  evaluate_batch_join_spec [⟨"a.com", 5, ["10.0.0.2"], ["A"]⟩]
    [⟨"a.com", .benign, 80, "ok", []⟩, ⟨"b.com", .malicious, 90, "x", []⟩]
    [] "qwen3:14b" 0
    [⟨"a.com", .benign, 80, "ok", [], "qwen3:14b", false, 5, ["10.0.0.2"], 0⟩,
      ⟨"b.com", .malicious, 90, "x", [], "qwen3:14b", false, 0, [], 0⟩]
    (by rfl)

/-! ## `main.py`: the run coordinator

The storage collaborator, the enricher's network lookups and the model are
external; a run is a function of their answers.  Output handlers are
identified by a tag; emitted alerts and summaries form a trace. -/

/-- A call to an output handler. -/
inductive OutputEvent
  | alert (ev : DomainEvaluation)
  | summary (evaluations : List DomainEvaluation) (stats : RunStats)
deriving DecidableEq, Repr

/-- The enrichment data one domain's lookups produce (everything of
`EnrichedDomain` except the wrapped stats). -/
structure Enrichment where
  dns_a : List String := []
  dns_mx : List String := []
  dns_ns : List String := []
  dns_txt : List String := []
  quad9_blocked : Option Bool := none
  cloudflare_blocked : Option Bool := none
  spamhaus_result : Option String := none
  surbl_result : Option String := none
  domain_age_days : Option Int := none
  registrar : Option String := none
  creation_date : Option String := none
  otx_pulse_count : Option Int := none
  otx_malware_count : Option Int := none
  otx_tags : List String := []
deriving DecidableEq, Repr

/-- `enrichment._enrich_one`: wrap the stats with the lookups' results. -/
def enrich_one (s : DomainStats) (d : Enrichment) : EnrichedDomain :=
  { stats := s, dns_a := d.dns_a, dns_mx := d.dns_mx, dns_ns := d.dns_ns,
    dns_txt := d.dns_txt, quad9_blocked := d.quad9_blocked,
    cloudflare_blocked := d.cloudflare_blocked,
    spamhaus_result := d.spamhaus_result, surbl_result := d.surbl_result,
    domain_age_days := d.domain_age_days, registrar := d.registrar,
    creation_date := d.creation_date, otx_pulse_count := d.otx_pulse_count,
    otx_malware_count := d.otx_malware_count, otx_tags := d.otx_tags }

/-- `enrichment.enrich_domains`: one enriched record per input domain, in
order (`asyncio.gather` preserves order; the semaphore only bounds
concurrency). -/
def enrich_domains (oracle : String → Enrichment)
    (domain_stats : List DomainStats) : List EnrichedDomain :=
  domain_stats.map (fun s => enrich_one s (oracle s.domain))

/-- The per-evaluation tally of `main.run` step 6: one threat-level counter
each, plus the escalation counter iff `escalated` is set. -/
def tally : List DomainEvaluation → RunStats → RunStats
  | [], st => st
  | ev :: evs, st =>
    let st :=
      match ev.threat_level with
      | .benign => { st with benign_count := st.benign_count + 1 }
      | .suspicious => { st with suspicious_count := st.suspicious_count + 1 }
      | .malicious => { st with malicious_count := st.malicious_count + 1 }
      | .unknown => { st with unknown_count := st.unknown_count + 1 }
    let st := if ev.escalated then { st with escalations := st.escalations + 1 } else st
    tally evs st

/-- The `for i, batch in enumerate(batches)` loop of `main.run`: classify,
extend the accumulator, count the batch, count an error iff the batch
yielded no evaluations.  `llm i` is the structured call's outcome for
batch `i`; an exception from `evaluate_batch` propagates and aborts the
run. -/
def classify_loop (llm : Nat → Except Unit (List SingleEvaluation))
    (previous : List DomainEvaluation) (model_name : String) (now : Nat) :
    Nat → List (List PromptInput) → List DomainEvaluation → RunStats →
    Except PyErr (List DomainEvaluation × RunStats)
  | _, [], acc, st => .ok (acc, st)
  | i, b :: rest, acc, st =>
    match evaluate_batch b (llm i) previous model_name now with
    | .error e => .error e
    | .ok evaluations =>
      let acc := acc ++ evaluations
      let st := { st with batches_processed := st.batches_processed + 1 }
      let st := if evaluations.isEmpty then { st with errors := st.errors + 1 } else st
      classify_loop llm previous model_name now (i + 1) rest acc st

/-- Everything `main.run` consumes: the allowlist configuration, the output
handlers, the storage collaborator's three reads, the enrichment oracle,
the per-batch model outcomes and the settings. -/
structure RunInputs where
  suffixes : List String
  exact : List String
  handlers : List Nat
  raw : List DomainStats
  evaluated : List String
  previous : List DomainEvaluation
  enrich : String → Enrichment
  llm : Nat → Except Unit (List SingleEvaluation)
  batch_size : Nat
  model_name : String
  now : Nat

/-- `main.run`: fetch → (empty? summary, stop) → filter → dedup → (empty?
summary, stop) → enrich → batch → classify per batch → tally → persist
(external, no trace effect) → alert non-benign → summary.  The batches
handed to `evaluate_batch` are `EnrichedDomain` values; an uncaught
exception aborts the run with no summary. -/
def run (inp : RunInputs) : Except PyErr (List (Nat × OutputEvent)) :=
  let stats : RunStats := {}
  let domain_stats := inp.raw
  let stats := { stats with total_domains_queried := domain_stats.length }
  if domain_stats.isEmpty then
    .ok (inp.handlers.map (fun h => (h, OutputEvent.summary [] stats)))
  else
    let filtered := filter_known_good inp.suffixes inp.exact domain_stats
    let stats := { stats with domains_after_filtering := filtered.length }
    let stats := { stats with domains_already_evaluated := inp.evaluated.length }
    let to_evaluate := remove_already_evaluated filtered inp.evaluated
    let stats := { stats with domains_to_evaluate := to_evaluate.length }
    if to_evaluate.isEmpty then
      .ok (inp.handlers.map (fun h => (h, OutputEvent.summary [] stats)))
    else
      let enriched := enrich_domains inp.enrich to_evaluate
      if inp.batch_size = 0 then .error .valueError
      else
        let batches := batch_domains (enriched.map PromptInput.enriched) inp.batch_size
        match classify_loop inp.llm inp.previous inp.model_name inp.now 0 batches [] stats with
        | .error e => .error e
        | .ok (all_evaluations, stats) =>
          let stats := tally all_evaluations stats
          let stats := { stats with evaluations_produced := all_evaluations.length }
          let alert_events :=
            (all_evaluations.filter (fun ev =>
              ev.threat_level == ThreatLevel.suspicious ||
                ev.threat_level == ThreatLevel.malicious)).flatMap
              (fun ev => inp.handlers.map (fun h => (h, OutputEvent.alert ev)))
          let summary_events :=
            inp.handlers.map (fun h => (h, OutputEvent.summary all_evaluations stats))
          .ok (alert_events ++ summary_events)

/-! ## Claim C5: classification failure is soft -/

/-- C5: when the structured model call for batch `i` fails after its
internal retries, `evaluate_batch` returns `[]` without raising, and the
coordinator loop records exactly one more processed batch and exactly one
more error for it, then continues with the remaining batches unchanged. -/
theorem classification_failure_is_soft (b : List DomainStats)
    (rest : List (List PromptInput))
    (llm : Nat → Except Unit (List SingleEvaluation))
    (previous : List DomainEvaluation) (model_name : String) (now : Nat)
    (i : Nat) (acc : List DomainEvaluation) (st : RunStats)
    (hfail : llm i = .error ()) :
    evaluate_batch (b.map PromptInput.stats) (llm i) previous model_name now =
      .ok [] ∧
    classify_loop llm previous model_name now i
        ((b.map PromptInput.stats) :: rest) acc st =
      classify_loop llm previous model_name now (i + 1) rest acc
        { st with batches_processed := st.batches_processed + 1,
                  errors := st.errors + 1 } := by
  have hb : evaluate_batch (b.map PromptInput.stats) (llm i) previous model_name now = .ok [] := by
    rw [evaluate_batch_stats_eq, hfail]
  refine ⟨hb, ?_⟩
  rw [classify_loop, hb]
  simp

/-- Witness for C5 at a concrete failing batch. -/
theorem classification_failure_is_soft_witness :
    evaluate_batch [.stats ⟨"c.test", 2, ["10.0.0.2"], ["A"]⟩]
        (.error ()) [] "qwen3:14b" 0 = .ok [] ∧
    classify_loop (fun _ => .error ()) [] "qwen3:14b" 0 0
        [[.stats ⟨"c.test", 2, ["10.0.0.2"], ["A"]⟩],
          [.stats ⟨"d.test", 1, [], ["A"]⟩]] [] {} =
      classify_loop (fun _ => .error ()) [] "qwen3:14b" 0 1
        [[.stats ⟨"d.test", 1, [], ["A"]⟩]] []
        { ({} : RunStats) with batches_processed := (0 : Nat) + 1,
                               errors := (0 : Nat) + 1 } := by
  have h := classification_failure_is_soft [⟨"c.test", 2, ["10.0.0.2"], ["A"]⟩]
    [[.stats ⟨"d.test", 1, [], ["A"]⟩]] (fun _ => .error ()) [] "qwen3:14b" 0
    0 [] {} rfl
  simpa using h

/-! ## Claim C1: the run does not always end in a summary -/

/-- C1 (code bug): on a run where a single fresh domain survives filtering
and dedup, the coordinator hands a batch of `EnrichedDomain` values to
`evaluate_batch` (annotated `list[DomainStats]`); `_format_batch_prompt`
reads `d.unique_clients`, which `EnrichedDomain` does not have, *before*
the `try` block, so the `AttributeError` aborts the whole run and no
`emit_summary` call is ever made — contradicting "every run ends by
emitting a summary". -/
theorem run_aborts_without_summary :
    run { suffixes := [], exact := [], handlers := [0],
          raw := [⟨"newdomain.xyz", 3, ["10.0.0.2"], ["A"]⟩],
          evaluated := [], previous := [],
          enrich := fun _ => {}, llm := fun _ => .error (),
          batch_size := 25, model_name := "qwen3:14b", now := 0 } =
      .error .attributeError := by
  rfl

/-! ## Claim C10: no evaluation is ever escalated -/

theorem evaluate_batch_ok_escalated_false (batch : List PromptInput)
    (llm : Except Unit (List SingleEvaluation))
    (previous : List DomainEvaluation) (model_name : String) (now : Nat)
    (evs : List DomainEvaluation)
    (h : evaluate_batch batch llm previous model_name now = .ok evs) :
    ∀ ev ∈ evs, ev.escalated = false := by
  intro ev hev
  simp only [evaluate_batch] at h
  cases hf : format_batch_prompt batch (format_learning_context previous) with
  | error e => rw [hf] at h; cases h
  | ok up =>
    rw [hf] at h
    cases llm with
    | error e =>
      cases h
      simp at hev
    | ok raws =>
      obtain ⟨single, _, hsingle⟩ := mem_of_mapM_except_ok _ raws evs h ev hev
      cases hl : domain_lookup batch single.domain with
      | none =>
        rw [hl] at hsingle
        cases hsingle
        rfl
      | some p =>
        rw [hl] at hsingle
        cases p with
        | stats s =>
          simp only [PromptInput.attr_query_count, PromptInput.attr_unique_clients] at hsingle
          cases hsingle
          rfl
        | enriched e =>
          simp only [PromptInput.attr_query_count, PromptInput.attr_unique_clients] at hsingle
          cases hsingle

theorem classify_loop_escalations (llm : Nat → Except Unit (List SingleEvaluation))
    (previous : List DomainEvaluation) (model_name : String) (now : Nat) :
    ∀ (batches : List (List PromptInput)) (i : Nat)
      (acc : List DomainEvaluation) (st : RunStats)
      (out : List DomainEvaluation × RunStats),
      classify_loop llm previous model_name now i batches acc st = .ok out →
      (∀ ev ∈ out.1, ev ∈ acc ∨ ev.escalated = false) ∧
      out.2.escalations = st.escalations := by
  intro batches
  induction batches with
  | nil =>
    intro i acc st out h
    cases h
    exact ⟨fun ev hev => Or.inl hev, rfl⟩
  | cons b rest ih =>
    intro i acc st out h
    rw [classify_loop] at h
    cases he : evaluate_batch b (llm i) previous model_name now with
    | error e => rw [he] at h; cases h
    | ok evaluations =>
      rw [he] at h
      obtain ⟨hmem, hesc⟩ := ih (i + 1) (acc ++ evaluations) _ out h
      constructor
      · intro ev hev
        rcases hmem ev hev with hacc | hfalse
        · rcases List.mem_append.mp hacc with h1 | h2
          · exact Or.inl h1
          · exact Or.inr (evaluate_batch_ok_escalated_false b (llm i)
              previous model_name now evaluations he ev h2)
        · exact Or.inr hfalse
      · rw [hesc]
        cases evaluations.isEmpty <;> rfl

theorem tally_escalations (evals : List DomainEvaluation) :
    ∀ st : RunStats, (∀ ev ∈ evals, ev.escalated = false) →
      (tally evals st).escalations = st.escalations := by
  induction evals with
  | nil => intro st _; rfl
  | cons ev evs ih =>
    intro st h
    have hev : ev.escalated = false := h ev (by simp)
    have hrest : ∀ e ∈ evs, e.escalated = false := fun e he => h e (by simp [he])
    cases htl : ev.threat_level <;>
      simp only [tally, htl, hev, Bool.false_eq_true, if_false] <;>
      exact ih _ hrest

/-- C10: every evaluation the classifier path produces has
`escalated = False` (the escalation tier is commented out and `evaluate_batch`
hard-codes `escalated=False`), and consequently every run that completes
reports `escalations = 0` in the summary's `RunStats`. -/
theorem escalations_always_zero :
    (∀ (batch : List PromptInput) (llm : Except Unit (List SingleEvaluation))
        (previous : List DomainEvaluation) (model_name : String) (now : Nat)
        (evs : List DomainEvaluation),
        evaluate_batch batch llm previous model_name now = .ok evs →
        ∀ ev ∈ evs, ev.escalated = false) ∧
    (∀ (inp : RunInputs) (trace : List (Nat × OutputEvent)),
        run inp = .ok trace →
        ∀ (hd : Nat) (evs : List DomainEvaluation) (st : RunStats),
          (hd, OutputEvent.summary evs st) ∈ trace → st.escalations = 0) := by
  refine ⟨evaluate_batch_ok_escalated_false, ?_⟩
  intro inp trace hrun hd evs st hmem
  simp only [run] at hrun
  split at hrun
  · cases hrun
    obtain ⟨hh, _, heq⟩ := List.mem_map.mp hmem
    simp only [Prod.mk.injEq, OutputEvent.summary.injEq] at heq
    rw [← heq.2.2]
  · split at hrun
    · cases hrun
      obtain ⟨hh, _, heq⟩ := List.mem_map.mp hmem
      simp only [Prod.mk.injEq, OutputEvent.summary.injEq] at heq
      rw [← heq.2.2]
    · split at hrun
      · cases hrun
      · split at hrun
        · cases hrun
        next all_evaluations stats' hclassify =>
          cases hrun
          rcases List.mem_append.mp hmem with halert | hsum
          · obtain ⟨ev, _, hin⟩ := List.mem_flatMap.mp halert
            obtain ⟨hh, _, heq⟩ := List.mem_map.mp hin
            simp [Prod.mk.injEq] at heq
          · obtain ⟨hh, _, heq⟩ := List.mem_map.mp hsum
            simp only [Prod.mk.injEq, OutputEvent.summary.injEq] at heq
            obtain ⟨h1, h2, h3⟩ := heq
            obtain ⟨hall, hesc⟩ := classify_loop_escalations inp.llm inp.previous
              inp.model_name inp.now _ 0 [] _ (all_evaluations, stats') hclassify
            have hfalse : ∀ ev ∈ all_evaluations, ev.escalated = false := by
              intro ev hev
              rcases hall ev hev with habs | hok
              · simp at habs
              · exact hok
            have hst : st.escalations = stats'.escalations := by
              rw [← h3]
              exact tally_escalations all_evaluations stats' hfalse
            rw [hst, hesc]

/-- Witness for C10: a concretely produced evaluation carries
`escalated = false`, and a completed concrete run reports zero
escalations. -/
theorem escalations_always_zero_witness :
    (⟨"a.com", .benign, 80, "ok", [], "qwen3:14b", false, 5, ["10.0.0.2"], 0⟩ :
      DomainEvaluation).escalated = false ∧
    ({} : RunStats).escalations = 0 := by
  constructor
  · exact escalations_always_zero.1
      [.stats ⟨"a.com", 5, ["10.0.0.2"], ["A"]⟩]
      (.ok [⟨"a.com", .benign, 80, "ok", []⟩]) [] "qwen3:14b" 0
      [⟨"a.com", .benign, 80, "ok", [], "qwen3:14b", false, 5, ["10.0.0.2"], 0⟩]
      (by rfl)
      ⟨"a.com", .benign, 80, "ok", [], "qwen3:14b", false, 5, ["10.0.0.2"], 0⟩
      (by simp)
  · exact escalations_always_zero.2
      { suffixes := [], exact := [], handlers := [0], raw := [],
        evaluated := [], previous := [], enrich := fun _ => {},
        llm := fun _ => .error (), batch_size := 25,
        model_name := "qwen3:14b", now := 0 }
      [(0, OutputEvent.summary [] {})] (by rfl) 0 [] {} (by simp)

end PiholeThreatIntel
